import Mathlib

/-!
Shallow embedding of `src/diffusers/models/unet_unconditional.py`
(`UNetUnconditionalModel` together with its helper modules `Combine`,
`TimestepEmbedding` and `Timesteps`), and proofs about the block-graph
construction and the forward data flow.

Tensors are modelled at the shape level: `Shape` records the four
dimensions `[batch, channels, height, width]`.  The down / up / mid
blocks are external collaborators built by `get_down_block`,
`get_up_block` and `UNetMidBlock2D` from `unet_new.py`, a file that is
not part of this repository snapshot; their shape and skip-counting
behaviour is modelled from the spec (sections 4.3 - 4.5) and each such
definition is marked `Modelled from the spec:` in its doc string.
Everything else is translated directly from `unet_unconditional.py`.
-/

namespace UNetUncond

/-- Python exception kinds raised by the modelled code paths.  The spec
(section 7) groups the explicit unrecognized-option `ValueError`s under
the name `ConfigurationError`. -/
inductive PyErr where
  | valueError (msg : String)
  | runtimeError (msg : String)
  | typeError (msg : String)
  | unboundLocalError (name : String)
  deriving DecidableEq, Repr

/-- Whether an exception is of the kind the spec calls a
`ConfigurationError` (section 7: an explicit error for an unrecognized
enum-like string option, raised in this file as a `ValueError`).
`UnboundLocalError` / `RuntimeError` / `TypeError` are not of that kind. -/
def PyErr.isConfigurationErrorKind : PyErr → Bool
  | .valueError _ => true
  | _ => false

/-- Shape of a rank-4 tensor `[batch, channels, height, width]`. -/
structure Shape where
  batch : Nat
  channels : Nat
  height : Nat
  width : Nat
  deriving DecidableEq, Repr

/-! ### `Combine` (src lines 18-34) -/

/-- The `Combine` module: a 1x1 convolution `Conv_0` from `dim1` to
`dim2` channels plus a stored `method` string (src lines 18-25). -/
structure Combine where
  dim1 : Nat
  dim2 : Nat
  method : String
  deriving DecidableEq, Repr

/-- Model of `Combine.__init__` (src lines 21-25): it stores the 1x1
convolution and the method string and returns normally for every
`method` value; the method string is only inspected later, inside
`Combine.forward`.  The `Except` result records that no exception can
be raised here. -/
def Combine.construct (dim1 dim2 : Nat) (method : String) : Except PyErr Combine :=
  .ok { dim1 := dim1, dim2 := dim2, method := method }

/-- Shape behaviour of a 1x1 `nn.Conv2d(inCh, outCh)`: requires the
input channel count to match, preserves batch and spatial dimensions. -/
def conv2d1x1 (inCh outCh : Nat) (x : Shape) : Except PyErr Shape :=
  if x.channels = inCh then .ok { x with channels := outCh }
  else .error (.runtimeError "Conv2d channel mismatch")

/-- Shape behaviour of `torch.cat([h, y], dim=1)`: batch and spatial
dimensions must agree, channel counts add. -/
def torchCat (h y : Shape) : Except PyErr Shape :=
  if h.batch = y.batch ∧ h.height = y.height ∧ h.width = y.width then
    .ok { h with channels := h.channels + y.channels }
  else .error (.runtimeError "cat shape mismatch")

/-- Shape behaviour of `h + y` on equally shaped tensors (broadcasting
is not exercised by `Combine`, whose two arguments have equal spatial
size by construction). -/
def torchAdd (h y : Shape) : Except PyErr Shape :=
  if h = y then .ok h else .error (.runtimeError "add shape mismatch")

/-- Model of `Combine.forward` (src lines 27-34): first apply the 1x1
convolution to `x`, then combine with `y` by `"cat"` or `"sum"`; any
other method string raises `ValueError` here, at call time. -/
def Combine.forward (c : Combine) (x y : Shape) : Except PyErr Shape := do
  let h ← conv2d1x1 c.dim1 c.dim2 x
  if c.method = "cat" then torchCat h y
  else if c.method = "sum" then torchAdd h y
  else .error (.valueError ("Method " ++ c.method ++ " not recognized."))

/-! ### `TimestepEmbedding` (src lines 37-54), over rational vectors -/

/-- Dot product of two rational vectors (truncating zip, as the shapes
are enforced elsewhere). -/
def dotQ (r x : List ℚ) : ℚ := ((r.zip x).map (fun p => p.1 * p.2)).sum

/-- An `nn.Linear` layer: weight matrix (one row per output feature)
and bias vector. -/
structure LinearLayer where
  weight : List (List ℚ)
  bias : List ℚ
  deriving DecidableEq, Repr

/-- Application of an `nn.Linear` layer: each output component is the
dot product of a weight row with the input plus the bias entry. -/
def LinearLayer.apply (l : LinearLayer) (x : List ℚ) : List ℚ :=
  (l.weight.zip l.bias).map (fun wb => dotQ wb.1 x + wb.2)

/-- The `TimestepEmbedding` module state: exactly the two linear layers
and the activation choice made in `__init__` (src lines 37-45). -/
structure TimestepEmbedding where
  linear_1 : LinearLayer
  actIsSilu : Bool
  linear_2 : LinearLayer
  deriving DecidableEq, Repr

/-- Model of `TimestepEmbedding.__init__` (src lines 38-45): `act` is
set to `nn.SiLU()` exactly when `act_fn == "silu"`, and left `None`
otherwise (in particular when `act_fn` is `None`, i.e. unset). -/
def TimestepEmbedding.construct (actFn : Option String) (l1 l2 : LinearLayer) :
    TimestepEmbedding :=
  { linear_1 := l1, actIsSilu := actFn == some "silu", linear_2 := l2 }

/-- Model of `TimestepEmbedding.forward` (src lines 47-54), parametric
in the scalar silu function `σ`: `linear_1`, then the stored activation
if present, then `linear_2`.  The numeric definition of silu lives in
the tensor backend, outside this file, so it is abstracted as `σ`. -/
def TimestepEmbedding.forward (σ : ℚ → ℚ) (te : TimestepEmbedding) (sample : List ℚ) :
    List ℚ :=
  let s1 := te.linear_1.apply sample
  let s2 := if te.actIsSilu then s1.map σ else s1
  te.linear_2.apply s2

/-! ### Timestep normalization at the start of `forward` (src lines 378-386) -/

/-- Element dtype of a torch tensor, as far as this file needs it. -/
inductive TorchDType where
  | int64
  | float32
  deriving DecidableEq, Repr

/-- A torch tensor: dimension list, flat values, dtype and device id. -/
structure TorchTensor where
  dims : List Nat
  vals : List ℚ
  dtype : TorchDType
  device : Nat
  deriving DecidableEq, Repr

/-- The `timestep` argument of `forward`: a Python `int`, a Python
`float`, or a torch tensor (of any rank; the signature documents rank
zero or one). -/
inductive TimestepInput where
  | scalarInt (n : Int)
  | scalarFloat (q : ℚ)
  | tensor (t : TorchTensor)
  deriving DecidableEq, Repr

/-- Truncation toward zero, the conversion a `dtype=torch.long` tensor
constructor applies to a Python float. -/
def truncTowardZero (q : ℚ) : Int := if q < 0 then ⌈q⌉ else ⌊q⌋

/-- Model of the timestep-normalization prelude of `forward`
(src lines 379-383): a non-tensor scalar is wrapped as
`torch.tensor([timesteps], dtype=torch.long, device=sample.device)`;
a 0-dimensional tensor becomes `timesteps[None].to(sample.device)`;
any other tensor (in particular a 1-D one) passes through unchanged. -/
def normalizeTimesteps (sampleDevice : Nat) : TimestepInput → TorchTensor
  | .scalarInt n =>
      { dims := [1], vals := [(n : ℚ)], dtype := .int64, device := sampleDevice }
  | .scalarFloat q =>
      { dims := [1], vals := [((truncTowardZero q : Int) : ℚ)], dtype := .int64,
        device := sampleDevice }
  | .tensor t =>
      if t.dims = [] then { t with dims := 1 :: t.dims, device := sampleDevice }
      else t

/-! ### Constructor-time selection of the timestep-embedding module
(src lines 204-212) -/

/-- The `self.time_steps` module chosen by the constructor: a
`GaussianFourierProjection` or a `Timesteps` (positional) module. -/
inductive TimeStepsModule where
  | fourierProjection (embeddingSize : Option Nat) (scale : Nat)
  | positional (numChannels : Nat) (flipSinToCos : Bool) (downscaleFreqShift : Nat)
  deriving DecidableEq, Repr

/-- Model of src lines 204-212: an `if`/`elif` on
`self.config.time_embedding_type` with no `else` branch.  For
`"fourier"` it builds a `GaussianFourierProjection` and sets
`timestep_input_dim = 2 * block_channels[0]`; for `"positional"` it
builds `Timesteps` with `timestep_input_dim = block_channels[0]`; for
any other string neither branch assigns `timestep_input_dim`, so the
`TimestepEmbedding(timestep_input_dim, ...)` call on line 212 raises
`UnboundLocalError` for the local `timestep_input_dim`.  Returns the
chosen module together with `timestep_input_dim`. -/
def initTimeLayers (cfgTimeEmbeddingType : String) (nf : Option Nat)
    (fourierScale : Nat) (c0 : Nat) (flipSinToCos : Bool) (downscaleFreqShift : Nat) :
    Except PyErr (TimeStepsModule × Nat) :=
  if cfgTimeEmbeddingType = "fourier" then
    .ok (.fourierProjection nf fourierScale, 2 * c0)
  else if cfgTimeEmbeddingType = "positional" then
    .ok (.positional c0 flipSinToCos downscaleFreqShift, c0)
  else
    .error (.unboundLocalError "timestep_input_dim")

/-! ### The `sde` override branch of `__init__` (src lines 179-192) -/

/-- The constructor arguments that the `sde` branch reads or rewrites.
Arguments whose Python default is `None` are `Option`-typed. -/
structure InitParams where
  blockChannels : List Nat
  inChannels : Option Nat
  outChannels : Option Nat
  convResample : Bool
  timeEmbeddingType : String
  timeEmbeddingActFn : Option String
  downBlocks : List String
  upBlocks : List String
  sde : Bool
  nf : Option Nat
  chMult : Option (List Nat)
  numChannels : Option Nat
  resampWithConv : Option Bool
  deriving DecidableEq, Repr

/-- The effective values after the `sde` branch: the local variables the
rest of `__init__` builds the block graph from, plus the two `config`
fields the branch explicitly rewrites. -/
structure EffectiveInit where
  blockChannels : List Nat
  inChannels : Option Nat
  outChannels : Option Nat
  convResample : Option Bool
  timeEmbeddingTypeCfg : String
  timeEmbeddingActFnCfg : Option String
  downBlocks : List String
  upBlocks : List String
  deriving DecidableEq, Repr

/-- The fixed down-block type list the `sde` branch installs
(src lines 187-192). -/
def sdeDownBlockTypes : List String :=
  ["UNetResSkipDownBlock2D", "UNetResAttnSkipDownBlock2D",
   "UNetResSkipDownBlock2D", "UNetResSkipDownBlock2D"]

/-- Model of src lines 179-192.  When `sde` is true (its default), the
branch recomputes `block_channels = [nf * x for x in ch_mult]` (a
`TypeError` if `nf` or `ch_mult` was left `None`), sets
`in_channels = out_channels = num_channels` and
`conv_resample = resamp_with_conv`, forces
`time_embedding_type = "fourier"` (also in `self.config`), clears
`self.config.time_embedding_act_fn`, and replaces `down_blocks` by the
four fixed skip-variant type tags.  `up_blocks` is left untouched.
When `sde` is false every value passes through unchanged. -/
def applySdeOverrides (p : InitParams) : Except PyErr EffectiveInit :=
  if p.sde then
    match p.nf, p.chMult with
    | some nf, some chMult =>
        .ok { blockChannels := chMult.map (fun x => nf * x)
              inChannels := p.numChannels
              outChannels := p.numChannels
              convResample := p.resampWithConv
              timeEmbeddingTypeCfg := "fourier"
              timeEmbeddingActFnCfg := none
              downBlocks := sdeDownBlockTypes
              upBlocks := p.upBlocks }
    | _, _ => .error (.typeError "unsupported operand or object not iterable: None")
  else
    .ok { blockChannels := p.blockChannels
          inChannels := p.inChannels
          outChannels := p.outChannels
          convResample := some p.convResample
          timeEmbeddingTypeCfg := p.timeEmbeddingType
          timeEmbeddingActFnCfg := p.timeEmbeddingActFn
          downBlocks := p.downBlocks
          upBlocks := p.upBlocks }

/-! ### Block graph construction (src lines 218-289) and the forward
data flow (src lines 369-427), at shape level -/

/-- The architecture hyperparameters that determine the block graph
(the effective values, after any `sde` override). -/
structure UNetConfig where
  inChannels : Nat
  outChannels : Nat
  numResBlocks : Nat
  blockChannels : List Nat
  downBlockTypes : List String
  upBlockTypes : List String
  deriving DecidableEq, Repr

/-- Whether a down-block type tag names a skip-connection variant (the
variants that expose a `skip_conv` attribute, see the `hasattr` test in
`forward`, src line 397). -/
def isSkipDownBlockType (t : String) : Bool :=
  t == "UNetResSkipDownBlock2D" || t == "UNetResAttnSkipDownBlock2D"

/-- A constructed down block, as far as shapes and skip counting are
concerned: its resnet count (`num_layers`), output channel width,
whether it ends in a stride-2 downsample, and whether it is a
skip-connection variant. -/
structure DownBlockM where
  numResnets : Nat
  outChannels : Nat
  addDownsample : Bool
  hasSkipConv : Bool
  deriving DecidableEq, Repr

/-- Modelled from the spec: section 4.3.  A non-skip down block runs its
`numResnets` residual blocks in sequence (the first maps the incoming
channel width to `outChannels`, the rest preserve it; optional attention
preserves shape), records every sub-step output as a skip tensor, and if
configured with a resample step applies a stride-2 downsampling
convolution at the end and records that output too.  Returns
`(main output, recorded skip tensors in production order)`.  The
conditioning vector `temb` does not affect shapes. -/
def DownBlockM.process (blk : DownBlockM) (hidden : Shape) (_temb : Nat) :
    Shape × List Shape :=
  let resOut : Shape := { hidden with channels := blk.outChannels }
  let resSkips := List.replicate blk.numResnets resOut
  if blk.addDownsample then
    let dsOut : Shape := { resOut with height := resOut.height / 2, width := resOut.width / 2 }
    (dsOut, resSkips ++ [dsOut])
  else
    (resOut, resSkips)

/-- Modelled from the spec: sections 4.3 and 2 (pyramid/progressive
path).  A skip-variant down block behaves like `DownBlockM.process` but
additionally threads a low-resolution pyramid tensor: on a resampling
level the pyramid is downsampled to the new resolution and merged into
the main path by a 1x1 projection followed by channel concatenation
(the `"cat"` combine method of the score-based topology, which doubles
the main channel width); the merged tensor is what gets recorded as the
level's final skip entry.  Returns
`(main output, skip tensors, updated pyramid tensor)`. -/
def DownBlockM.processSkip (blk : DownBlockM) (hidden skipSample : Shape) (_temb : Nat) :
    Shape × List Shape × Shape :=
  let resOut : Shape := { hidden with channels := blk.outChannels }
  let resSkips := List.replicate blk.numResnets resOut
  if blk.addDownsample then
    let combined : Shape :=
      { resOut with
          channels := 2 * blk.outChannels
          height := resOut.height / 2
          width := resOut.width / 2 }
    let sk : Shape :=
      { skipSample with
          height := skipSample.height / 2
          width := skipSample.width / 2 }
    (combined, resSkips ++ [combined], sk)
  else
    (resOut, resSkips, skipSample)

/-- Channel width of the main-path output of a down block (the combine
step of a skip variant doubles it on resampling levels). -/
def DownBlockM.mainOutChannels (blk : DownBlockM) : Nat :=
  if blk.hasSkipConv && blk.addDownsample then 2 * blk.outChannels else blk.outChannels

/-- Number of skip tensors a down block records: one per residual step
plus one for the resample step when present (spec section 4.3). -/
def DownBlockM.skipCount (blk : DownBlockM) : Nat :=
  blk.numResnets + (if blk.addDownsample then 1 else 0)

/-- A constructed up block: its resnet count (`num_layers`, which the
constructor sets to `num_res_blocks + 1`), output channel width, and
whether it ends in a stride-2 upsample. -/
structure UpBlockM where
  numResnets : Nat
  outChannels : Nat
  addUpsample : Bool
  deriving DecidableEq, Repr

/-- Modelled from the spec: section 4.5.  An up block consumes its skip
tensors (concatenating them into the residual inputs), produces a main
tensor of its configured output channel width, and if configured with a
resample step doubles the spatial size at the end.  The skip tensors and
the conditioning vector do not affect the output shape. -/
def UpBlockM.process (blk : UpBlockM) (hidden : Shape) (_resSamples : List Shape)
    (_temb : Nat) : Shape :=
  let out : Shape := { hidden with channels := blk.outChannels }
  if blk.addUpsample then { out with height := out.height * 2, width := out.width * 2 }
  else out

/-- Model of the down-block construction loop (src lines 218-237): for
each `i`, `output_channel = block_channels[i]`,
`num_layers = num_res_blocks`, and
`add_downsample = not (i == len(block_channels) - 1)`. -/
def mkDownBlocks (cfg : UNetConfig) : List DownBlockM :=
  (List.range cfg.downBlockTypes.length).map fun i =>
    { numResnets := cfg.numResBlocks
      outChannels := cfg.blockChannels.getD i 0
      addDownsample := !(i == cfg.blockChannels.length - 1)
      hasSkipConv := isSkipDownBlockType (cfg.downBlockTypes.getD i "") }

/-- Model of the up-block construction loop (src lines 261-284): channel
widths are read from the reversed `block_channels`,
`num_layers = num_res_blocks + 1`, and
`add_upsample = not (i == len(block_channels) - 1)`. -/
def mkUpBlocks (cfg : UNetConfig) : List UpBlockM :=
  (List.range cfg.upBlockTypes.length).map fun i =>
    { numResnets := cfg.numResBlocks + 1
      outChannels := cfg.blockChannels.reverse.getD i 0
      addUpsample := !(i == cfg.blockChannels.length - 1) }

/-- Modelled from the spec: section 4.4.  The mid block
(`UNetMidBlock2D`) is residual - attention - residual, resolution- and
channel-preserving, so at shape level it is the identity. -/
def UNetMidBlock2D_shape (s : Shape) : Shape := s

/-- A Python value returned by `forward`: either a bare tensor or a
string-keyed dictionary of tensors. -/
inductive PyValue where
  | tensor (s : Shape)
  | pyDict (entries : List (String × Shape))
  deriving DecidableEq, Repr

/-- Whether a returned value is a bare tensor (rather than a dict). -/
def PyValue.isTensorValue : PyValue → Bool
  | .tensor _ => true
  | .pyDict _ => false

/-- The constructed model, as far as the forward data flow needs it:
the input convolution target width (`block_channels[0]`), the two block
lists, the output convolution target width (`out_channels`), and the
conditioning width `time_embed_dim = block_channels[0] * 4`. -/
structure UNetModel where
  convInOut : Nat
  downBlocks : List DownBlockM
  upBlocks : List UpBlockM
  outChannels : Nat
  timeEmbedDim : Nat
  deriving DecidableEq, Repr

/-- Assembly of the block graph from a configuration (src lines 198,
202, 218-237, 261-289). -/
def mkUNetModel (cfg : UNetConfig) : UNetModel :=
  { convInOut := cfg.blockChannels.getD 0 0
    downBlocks := mkDownBlocks cfg
    upBlocks := mkUpBlocks cfg
    outChannels := cfg.outChannels
    timeEmbedDim := cfg.blockChannels.getD 0 0 * 4 }

/-- Model of the down-block loop of `forward` (src lines 395-403):
each block is invoked on the running `sample` (skip variants also
receive and return the pyramid tensor `skip_sample`), and the returned
skip tensors are appended to the buffer in order. -/
def downLoop : List DownBlockM → Shape → Shape → Nat → List Shape →
    Shape × Shape × List Shape
  | [], sample, skipSample, _temb, buf => (sample, skipSample, buf)
  | blk :: rest, sample, skipSample, temb, buf =>
    if blk.hasSkipConv then
      let r := blk.processSkip sample skipSample temb
      downLoop rest r.1 r.2.2 temb (buf ++ r.2.1)
    else
      let r := blk.process sample temb
      downLoop rest r.1 skipSample temb (buf ++ r.2)

/-- Model of the up-block loop of `forward` (src lines 412-418): for
each block, in construction order, slice the last `len(resnets)` entries
off the buffer (`down_block_res_samples[-k:]`, preserving their order),
truncate the buffer (`down_block_res_samples[:-k]`), and invoke the
block on the running sample, the slice, and the conditioning vector.
(For the constructed blocks `len(resnets) = num_res_blocks + 1 >= 1`, so
the Python `-k` slice indices behave as these `take`/`drop`.) -/
def upLoop : List UpBlockM → Shape → Nat → List Shape → Shape × List Shape
  | [], sample, _temb, buf => (sample, buf)
  | blk :: rest, sample, temb, buf =>
    let resSamples := buf.drop (buf.length - blk.numResnets)
    let remaining := buf.take (buf.length - blk.numResnets)
    upLoop rest (blk.process sample resSamples temb) temb remaining

/-- Model of the forward data flow (src lines 369-427), weights already
overwritten: normalize the timestep, build the conditioning vector,
apply `conv_in` (3x3, padding 1: spatial-preserving, channels to
`block_channels[0]`), seed the skip buffer with that result, run the
down loop (the raw input seeds the pyramid tensor), the mid block, the
up loop, then `conv_norm_out` (shape-preserving), `conv_act`
(shape-preserving) and `conv_out` (3x3, padding 1: channels to
`out_channels`), and return the dictionary `{"sample": result}`. -/
def UNetModel.forwardCompute (m : UNetModel) (sample : Shape) : PyValue :=
  let s0 : Shape := { sample with channels := m.convInOut }
  let d := downLoop m.downBlocks s0 sample m.timeEmbedDim [s0]
  let u := upLoop m.upBlocks (UNetMidBlock2D_shape d.1) m.timeEmbedDim d.2.2
  PyValue.pyDict [("sample", { u.1 with channels := m.outChannels })]

/-! ### Instance state across `forward` calls (src lines 297, 369-376,
432-534) -/

/-- The mutable instance state that `forward` can touch: the
`is_overwritten` flag, the legacy-mode config flags, whether the legacy
weight-migration submodules are still attached, an abstract version
counter for the learned weights, and the (structurally immutable) block
graph. -/
structure UNetState where
  isOverwritten : Bool
  ldm : Bool
  ddpm : Bool
  sde : Bool
  hasLegacyModules : Bool
  weightsVersion : Nat
  graph : UNetModel
  deriving DecidableEq, Repr

/-- How a call that may hit the interactive debugger ends. -/
inductive StepEffect where
  | completed
  | breakpointHit
  deriving DecidableEq, Repr

/-- Model of `set_weights` (src lines 432-534): it first sets
`is_overwritten = True`; in `ldm`/`ddpm` mode it copies the pretrained
weights into the unified modules and then deletes the legacy submodules
(`remove_ldm` / `remove_ddpm`); in `sde` mode it copies some weights and
then runs an unconditional `import ipdb; ipdb.set_trace()`, an
interactive debugger breakpoint; with no legacy flag set it does nothing
further. -/
def setWeights (st : UNetState) : UNetState × StepEffect :=
  let st1 := { st with isOverwritten := true }
  if st1.ldm then
    ({ st1 with weightsVersion := st1.weightsVersion + 1, hasLegacyModules := false },
     .completed)
  else if st1.ddpm then
    ({ st1 with weightsVersion := st1.weightsVersion + 1, hasLegacyModules := false },
     .completed)
  else if st1.sde then
    ({ st1 with weightsVersion := st1.weightsVersion + 1 }, .breakpointHit)
  else
    (st1, .completed)

/-- Result of a `forward` call: interrupted at the debugger breakpoint,
or completed with a returned value. -/
inductive ForwardResult where
  | interrupted
  | output (v : PyValue)
  deriving DecidableEq, Repr

/-- Model of `forward` including its stateful prelude (src lines
375-376): if `is_overwritten` is still false, `set_weights` runs before
any computation; if that hits the breakpoint the call does not run to
completion; otherwise the pure forward computation produces the output.
No other statement of `forward` assigns to the instance. -/
def UNetState.forward (st : UNetState) (sample : Shape) : UNetState × ForwardResult :=
  if st.isOverwritten then
    (st, .output (st.graph.forwardCompute sample))
  else
    let r := setWeights st
    match r.2 with
    | .breakpointHit => (r.1, .interrupted)
    | .completed => (r.1, .output (r.1.graph.forwardCompute sample))

/-! ### Derived counting functions used by the theorems -/

/-- Total number of skip tensors recorded by a list of down blocks. -/
def sumSkipCounts (blocks : List DownBlockM) : Nat :=
  (blocks.map DownBlockM.skipCount).sum

/-- Number of downsampling steps in a list of down blocks. -/
def countDownsamples (blocks : List DownBlockM) : Nat :=
  (blocks.map (fun b => if b.addDownsample then 1 else 0)).sum

/-- Number of upsampling steps in a list of up blocks. -/
def countUpsamples (blocks : List UpBlockM) : Nat :=
  (blocks.map (fun b => if b.addUpsample then 1 else 0)).sum

/-- Total number of skip tensors consumed by a list of up blocks. -/
def sumResnets (blocks : List UpBlockM) : Nat :=
  (blocks.map UpBlockM.numResnets).sum

/-- Main-path channel width after a list of down blocks, starting from
width `c`. -/
def lastMainChannels (c : Nat) (blocks : List DownBlockM) : Nat :=
  blocks.foldl (fun _ b => b.mainOutChannels) c

/-- Main-path channel width after a list of up blocks, starting from
width `c`. -/
def lastUpChannels (c : Nat) (blocks : List UpBlockM) : Nat :=
  blocks.foldl (fun _ b => b.outChannels) c

/-! ### Concrete instances used by witnesses and counterexamples -/

/-- A small two-level configuration (plain residual blocks, one residual
block per level), in the shape of the scenario of spec section 8. -/
def cfgTwoLevel : UNetConfig :=
  { inChannels := 3
    outChannels := 5
    numResBlocks := 1
    blockChannels := [4, 8]
    downBlockTypes := ["UNetResDownBlock2D", "UNetResDownBlock2D"]
    upBlockTypes := ["UNetResUpBlock2D", "UNetResUpBlock2D"] }

/-- A freshly constructed instance with every legacy flag off. -/
def statePlain : UNetState :=
  { isOverwritten := false
    ldm := false
    ddpm := false
    sde := false
    hasLegacyModules := false
    weightsVersion := 0
    graph := mkUNetModel cfgTwoLevel }

/-- A freshly constructed instance in the default `sde=True` mode. -/
def stateSde : UNetState := { statePlain with sde := true }

/-- Constructor arguments with `sde` left at its default `True` and the
sde-specific options supplied, as a score-based caller would. -/
def sdeParams : InitParams :=
  { blockChannels := [224, 448, 672, 896]
    inChannels := none
    outChannels := none
    convResample := true
    timeEmbeddingType := "positional"
    timeEmbeddingActFn := some "silu"
    downBlocks := ["UNetResDownBlock2D", "UNetResAttnDownBlock2D",
                   "UNetResAttnDownBlock2D", "UNetResAttnDownBlock2D"]
    upBlocks := ["UNetResAttnUpBlock2D", "UNetResAttnUpBlock2D",
                 "UNetResAttnUpBlock2D", "UNetResUpBlock2D"]
    sde := true
    nf := some 128
    chMult := some [1, 2, 2, 2]
    numChannels := some 3
    resampWithConv := some true }

/-- Whether a modelled call raised an exception of the kind the spec
calls `ConfigurationError`. -/
def raisedConfigurationError {α : Type} : Except PyErr α → Bool
  | .error e => e.isConfigurationErrorKind
  | .ok _ => false

/-- The effective constructor values produced from `sdeParams`. -/
def sdeEffective : EffectiveInit :=
  { blockChannels := [128, 256, 256, 256]
    inChannels := some 3
    outChannels := some 3
    convResample := some true
    timeEmbeddingTypeCfg := "fourier"
    timeEmbeddingActFnCfg := none
    downBlocks := sdeDownBlockTypes
    upBlocks := sdeParams.upBlocks }

/-- An instance whose weights have already been overwritten. -/
def stateDone : UNetState := { statePlain with isOverwritten := true }

/-! ### Helper lemmas on the loops and the constructed block lists -/

theorem sum_map_range_eq (f : Nat → Nat) (n : Nat) :
    ((List.range n).map f).sum = Finset.sum (Finset.range n) f := by
  induction n with
  | zero => simp
  | succ n ih => simp [List.range_succ, Finset.sum_range_succ, ih]

theorem sum_ite_eq_last (m : Nat) :
    Finset.sum (Finset.range (m + 1)) (fun i => if i = m then 0 else 1) = m := by
  rw [Finset.sum_range_succ, if_pos rfl, Nat.add_zero]
  have h : ∀ i ∈ Finset.range m, (if i = m then 0 else (1 : Nat)) = 1 := by
    intro i hi
    exact if_neg (Nat.ne_of_lt (Finset.mem_range.mp hi))
  rw [Finset.sum_congr rfl h]
  simp

theorem processSkip_skips_length (blk : DownBlockM) (h sk : Shape) (t : Nat) :
    (blk.processSkip h sk t).2.1.length = blk.skipCount := by
  by_cases hd : blk.addDownsample = true <;>
    simp [DownBlockM.processSkip, DownBlockM.skipCount, hd]

theorem process_skips_length (blk : DownBlockM) (h : Shape) (t : Nat) :
    (blk.process h t).2.length = blk.skipCount := by
  by_cases hd : blk.addDownsample = true <;>
    simp [DownBlockM.process, DownBlockM.skipCount, hd]

theorem downLoop_buffer_length (blocks : List DownBlockM) :
    ∀ (s sk : Shape) (temb : Nat) (buf : List Shape),
    (downLoop blocks s sk temb buf).2.2.length = buf.length + sumSkipCounts blocks := by
  induction blocks with
  | nil => intro s sk temb buf; simp [downLoop, sumSkipCounts]
  | cons blk rest ih =>
    intro s sk temb buf
    by_cases hs : blk.hasSkipConv = true
    · simp [downLoop, hs, ih, sumSkipCounts, processSkip_skips_length, Nat.add_assoc]
    · simp [downLoop, hs, ih, sumSkipCounts, process_skips_length, Nat.add_assoc]

theorem downLoop_main (blocks : List DownBlockM) :
    ∀ (s sk : Shape) (temb : Nat) (buf : List Shape),
    (downLoop blocks s sk temb buf).1 =
      { batch := s.batch
        channels := lastMainChannels s.channels blocks
        height := s.height / 2 ^ countDownsamples blocks
        width := s.width / 2 ^ countDownsamples blocks } := by
  induction blocks with
  | nil =>
    intro s sk temb buf
    simp [downLoop, lastMainChannels, countDownsamples]
  | cons blk rest ih =>
    intro s sk temb buf
    have hdiv : ∀ (a n : Nat), a / 2 / 2 ^ n = a / 2 ^ (n + 1) := by
      intro a n
      rw [Nat.div_div_eq_div_mul, ← pow_succ']
    have hcons : ∀ c, lastMainChannels c (blk :: rest) =
        lastMainChannels blk.mainOutChannels rest := by
      intro c; simp [lastMainChannels, List.foldl_cons]
    by_cases hs : blk.hasSkipConv = true <;>
      by_cases hd : blk.addDownsample = true <;>
        simp only [downLoop, hs, hd, DownBlockM.processSkip, DownBlockM.process,
          if_pos, if_neg, Bool.false_eq_true, ite_false, ite_true] <;>
        rw [ih] <;>
        simp [hcons, DownBlockM.mainOutChannels, hs, hd, countDownsamples, hdiv,
          Nat.add_comm]

theorem upLoop_main (blocks : List UpBlockM) :
    ∀ (s : Shape) (temb : Nat) (buf : List Shape),
    (upLoop blocks s temb buf).1 =
      { batch := s.batch
        channels := lastUpChannels s.channels blocks
        height := s.height * 2 ^ countUpsamples blocks
        width := s.width * 2 ^ countUpsamples blocks } := by
  induction blocks with
  | nil =>
    intro s temb buf
    simp [upLoop, lastUpChannels, countUpsamples]
  | cons blk rest ih =>
    intro s temb buf
    have hmul : ∀ (a n : Nat), a * 2 * 2 ^ n = a * 2 ^ (n + 1) := by
      intro a n
      rw [pow_succ]
      ring
    have hcons : ∀ c, lastUpChannels c (blk :: rest) =
        lastUpChannels blk.outChannels rest := by
      intro c; simp [lastUpChannels, List.foldl_cons]
    by_cases hu : blk.addUpsample = true <;>
      simp only [upLoop, UpBlockM.process, hu, Bool.false_eq_true, ite_false,
        ite_true] <;>
      rw [ih] <;>
      simp [hcons, countUpsamples, hu, hmul, Nat.add_comm]

theorem upLoop_buffer_length (blocks : List UpBlockM) :
    ∀ (s : Shape) (temb : Nat) (buf : List Shape),
    (upLoop blocks s temb buf).2.length = buf.length - sumResnets blocks := by
  induction blocks with
  | nil => intro s temb buf; simp [upLoop, sumResnets]
  | cons blk rest ih =>
    intro s temb buf
    simp only [upLoop]
    rw [ih]
    simp [sumResnets, List.length_take, Nat.sub_sub]

theorem sumSkip_over_range (n : Nat) (g : Nat → DownBlockM) :
    sumSkipCounts ((List.range n).map g) =
      Finset.sum (Finset.range n) (fun i => (g i).skipCount) := by
  unfold sumSkipCounts
  rw [List.map_map, sum_map_range_eq]
  rfl

theorem countDown_over_range (n : Nat) (g : Nat → DownBlockM) :
    countDownsamples ((List.range n).map g) =
      Finset.sum (Finset.range n) (fun i => if (g i).addDownsample then 1 else 0) := by
  unfold countDownsamples
  rw [List.map_map, sum_map_range_eq]
  rfl

theorem countUp_over_range (n : Nat) (g : Nat → UpBlockM) :
    countUpsamples ((List.range n).map g) =
      Finset.sum (Finset.range n) (fun i => if (g i).addUpsample then 1 else 0) := by
  unfold countUpsamples
  rw [List.map_map, sum_map_range_eq]
  rfl

theorem sumResnets_over_range (n : Nat) (g : Nat → UpBlockM) :
    sumResnets ((List.range n).map g) =
      Finset.sum (Finset.range n) (fun i => (g i).numResnets) := by
  unfold sumResnets
  rw [List.map_map, sum_map_range_eq]
  rfl

theorem countDownsamples_mkDownBlocks (cfg : UNetConfig)
    (hdt : cfg.downBlockTypes.length = cfg.blockChannels.length)
    (hL : 0 < cfg.blockChannels.length) :
    countDownsamples (mkDownBlocks cfg) = cfg.blockChannels.length - 1 := by
  obtain ⟨m, hm⟩ : ∃ m, cfg.blockChannels.length = m + 1 :=
    ⟨cfg.blockChannels.length - 1, (Nat.succ_pred_eq_of_pos hL).symm⟩
  unfold mkDownBlocks
  rw [countDown_over_range, hdt, hm]
  trans (Finset.sum (Finset.range (m + 1)) (fun i => if i = m then 0 else 1))
  · exact Finset.sum_congr rfl (fun i hi => by by_cases h2 : i = m <;> simp [h2])
  · rw [sum_ite_eq_last]
    simp

theorem sumSkipCounts_mkDownBlocks (cfg : UNetConfig)
    (hdt : cfg.downBlockTypes.length = cfg.blockChannels.length)
    (hL : 0 < cfg.blockChannels.length) :
    sumSkipCounts (mkDownBlocks cfg) =
      cfg.blockChannels.length * cfg.numResBlocks + (cfg.blockChannels.length - 1) := by
  obtain ⟨m, hm⟩ : ∃ m, cfg.blockChannels.length = m + 1 :=
    ⟨cfg.blockChannels.length - 1, (Nat.succ_pred_eq_of_pos hL).symm⟩
  unfold mkDownBlocks
  rw [sumSkip_over_range, hdt, hm]
  trans (Finset.sum (Finset.range (m + 1))
      (fun i => cfg.numResBlocks + (if i = m then 0 else 1)))
  · exact Finset.sum_congr rfl (fun i hi => by
      by_cases h2 : i = m <;> simp [DownBlockM.skipCount, h2])
  · rw [Finset.sum_add_distrib, sum_ite_eq_last, Finset.sum_const, Finset.card_range,
      smul_eq_mul]
    simp

theorem countUpsamples_mkUpBlocks (cfg : UNetConfig)
    (hut : cfg.upBlockTypes.length = cfg.blockChannels.length)
    (hL : 0 < cfg.blockChannels.length) :
    countUpsamples (mkUpBlocks cfg) = cfg.blockChannels.length - 1 := by
  obtain ⟨m, hm⟩ : ∃ m, cfg.blockChannels.length = m + 1 :=
    ⟨cfg.blockChannels.length - 1, (Nat.succ_pred_eq_of_pos hL).symm⟩
  unfold mkUpBlocks
  rw [countUp_over_range, hut, hm]
  trans (Finset.sum (Finset.range (m + 1)) (fun i => if i = m then 0 else 1))
  · exact Finset.sum_congr rfl (fun i hi => by by_cases h2 : i = m <;> simp [h2])
  · rw [sum_ite_eq_last]
    simp

theorem sumResnets_mkUpBlocks (cfg : UNetConfig) :
    sumResnets (mkUpBlocks cfg) =
      cfg.upBlockTypes.length * (cfg.numResBlocks + 1) := by
  unfold mkUpBlocks
  rw [sumResnets_over_range]
  trans (Finset.sum (Finset.range cfg.upBlockTypes.length)
      (fun _ => cfg.numResBlocks + 1))
  · exact Finset.sum_congr rfl (fun i hi => rfl)
  · rw [Finset.sum_const, Finset.card_range, smul_eq_mul]

theorem mkUpBlocks_numResnets (cfg : UNetConfig) :
    ∀ b ∈ mkUpBlocks cfg, b.numResnets = cfg.numResBlocks + 1 := by
  intro b hb
  simp only [mkUpBlocks, List.mem_map, List.mem_range] at hb
  obtain ⟨i, hi, rfl⟩ := hb
  rfl

/-! ### Claim C2 -/

/-- C2: for a valid configuration with `L` resolution levels and `R`
residual blocks per level, the skip buffer after the down pass holds
exactly `1 + L*R + (L-1)` entries (the input-convolution entry, one per
residual step, one per non-final resample step); each of the `L` up
blocks is built with `len(resnets) = R + 1`, so the up pass consumes
exactly `L*(R+1) = 1 + L*R + (L-1)` entries and the buffer is empty at
the end of `forward`. -/
theorem C2_skip_buffer_count (cfg : UNetConfig)
    (hdt : cfg.downBlockTypes.length = cfg.blockChannels.length)
    (hut : cfg.upBlockTypes.length = cfg.blockChannels.length)
    (hL : 0 < cfg.blockChannels.length)
    (s0 sk sMid : Shape) (temb : Nat) :
    (downLoop (mkDownBlocks cfg) s0 sk temb [s0]).2.2.length =
        1 + cfg.blockChannels.length * cfg.numResBlocks +
          (cfg.blockChannels.length - 1)
    ∧ (∀ b ∈ mkUpBlocks cfg, b.numResnets = cfg.numResBlocks + 1)
    ∧ (upLoop (mkUpBlocks cfg) sMid temb
        (downLoop (mkDownBlocks cfg) s0 sk temb [s0]).2.2).2 = [] := by
  have hlen : (downLoop (mkDownBlocks cfg) s0 sk temb [s0]).2.2.length =
      1 + cfg.blockChannels.length * cfg.numResBlocks +
        (cfg.blockChannels.length - 1) := by
    rw [downLoop_buffer_length, sumSkipCounts_mkDownBlocks cfg hdt hL]
    simp [Nat.add_assoc]
  refine ⟨hlen, mkUpBlocks_numResnets cfg, ?_⟩
  have h2 : (upLoop (mkUpBlocks cfg) sMid temb
      (downLoop (mkDownBlocks cfg) s0 sk temb [s0]).2.2).2.length = 0 := by
    rw [upLoop_buffer_length, hlen, sumResnets_mkUpBlocks, hut, Nat.mul_succ]
    omega
  exact List.length_eq_zero.mp h2

/-- C2 witness: the two-level configuration with one residual block per
level yields `1 + 2*1 + 1 = 4` skip entries, and the up pass drains all
of them. -/
theorem C2_skip_buffer_count_witness :
    (downLoop (mkDownBlocks cfgTwoLevel) ⟨1, 4, 32, 32⟩ ⟨1, 3, 32, 32⟩ 16
        [⟨1, 4, 32, 32⟩]).2.2.length =
      1 + cfgTwoLevel.blockChannels.length * cfgTwoLevel.numResBlocks +
        (cfgTwoLevel.blockChannels.length - 1)
    ∧ (upLoop (mkUpBlocks cfgTwoLevel) ⟨1, 8, 16, 16⟩ 16
        (downLoop (mkDownBlocks cfgTwoLevel) ⟨1, 4, 32, 32⟩ ⟨1, 3, 32, 32⟩ 16
          [⟨1, 4, 32, 32⟩]).2.2).2 = [] :=
  ⟨(C2_skip_buffer_count cfgTwoLevel rfl rfl (by decide)
      ⟨1, 4, 32, 32⟩ ⟨1, 3, 32, 32⟩ ⟨1, 8, 16, 16⟩ 16).1,
   (C2_skip_buffer_count cfgTwoLevel rfl rfl (by decide)
      ⟨1, 4, 32, 32⟩ ⟨1, 3, 32, 32⟩ ⟨1, 8, 16, 16⟩ 16).2.2⟩

/-! ### Claim C3 -/

/-- C3: in `forward`, each up block taken in order removes exactly
`len(resnets)` tensors from the end of the skip buffer (LIFO stack
discipline): writing the buffer as `kept ++ popped` with
`popped.length = len(resnets)`, the slice `buffer[-k:]` is exactly
`popped` in its original (oldest-first) order, the truncated buffer
`buffer[:-k]` is exactly `kept`, and the loop invokes the block on the
running sample, that slice, and the conditioning vector before
continuing with the truncated buffer. -/
theorem C3_up_block_pop (blk : UpBlockM) (rest : List UpBlockM) (s : Shape)
    (temb : Nat) (kept popped : List Shape)
    (hp : popped.length = blk.numResnets) :
    (kept ++ popped).drop ((kept ++ popped).length - blk.numResnets) = popped
    ∧ (kept ++ popped).take ((kept ++ popped).length - blk.numResnets) = kept
    ∧ upLoop (blk :: rest) s temb (kept ++ popped) =
        upLoop rest (blk.process s popped temb) temb kept := by
  have hlen : (kept ++ popped).length - blk.numResnets = kept.length := by
    rw [List.length_append, ← hp, Nat.add_sub_cancel]
  have hdrop : (kept ++ popped).drop ((kept ++ popped).length - blk.numResnets)
      = popped := by rw [hlen, List.drop_left]
  have htake : (kept ++ popped).take ((kept ++ popped).length - blk.numResnets)
      = kept := by rw [hlen, List.take_left]
  refine ⟨hdrop, htake, ?_⟩
  simp only [upLoop, hdrop, htake]

/-- C3 witness: a concrete up block with two resnets pops the last two
of four buffer entries, in order. -/
theorem C3_up_block_pop_witness :
    (([⟨1, 4, 32, 32⟩, ⟨1, 4, 16, 16⟩] : List Shape) ++
        ([⟨1, 8, 16, 16⟩, ⟨1, 8, 8, 8⟩] : List Shape)).drop
        ((([⟨1, 4, 32, 32⟩, ⟨1, 4, 16, 16⟩] : List Shape) ++
          ([⟨1, 8, 16, 16⟩, ⟨1, 8, 8, 8⟩] : List Shape)).length - (2 : Nat)) =
      ([⟨1, 8, 16, 16⟩, ⟨1, 8, 8, 8⟩] : List Shape)
    ∧ (([⟨1, 4, 32, 32⟩, ⟨1, 4, 16, 16⟩] : List Shape) ++
        ([⟨1, 8, 16, 16⟩, ⟨1, 8, 8, 8⟩] : List Shape)).take
        ((([⟨1, 4, 32, 32⟩, ⟨1, 4, 16, 16⟩] : List Shape) ++
          ([⟨1, 8, 16, 16⟩, ⟨1, 8, 8, 8⟩] : List Shape)).length - (2 : Nat)) =
      ([⟨1, 4, 32, 32⟩, ⟨1, 4, 16, 16⟩] : List Shape)
    ∧ upLoop [⟨2, 8, true⟩] ⟨1, 8, 8, 8⟩ 16
        (([⟨1, 4, 32, 32⟩, ⟨1, 4, 16, 16⟩] : List Shape) ++
          ([⟨1, 8, 16, 16⟩, ⟨1, 8, 8, 8⟩] : List Shape)) =
        upLoop []
          (UpBlockM.process ⟨2, 8, true⟩ ⟨1, 8, 8, 8⟩
            ([⟨1, 8, 16, 16⟩, ⟨1, 8, 8, 8⟩] : List Shape) 16) 16
          ([⟨1, 4, 32, 32⟩, ⟨1, 4, 16, 16⟩] : List Shape) :=
  C3_up_block_pop ⟨2, 8, true⟩ [] ⟨1, 8, 8, 8⟩ 16
    ([⟨1, 4, 32, 32⟩, ⟨1, 4, 16, 16⟩] : List Shape)
    ([⟨1, 8, 16, 16⟩, ⟨1, 8, 8, 8⟩] : List Shape) rfl

/-! ### Claim C1 -/

/-- C1 counterexample: at a concrete valid input, the value returned by
the forward pass is not the post-processed tensor itself but a
dictionary; its sole entry, under the key `"sample"`, is that tensor. -/
theorem C1_counterexample :
    PyValue.isTensorValue
        ((mkUNetModel cfgTwoLevel).forwardCompute ⟨1, 3, 32, 32⟩) = false
    ∧ (mkUNetModel cfgTwoLevel).forwardCompute ⟨1, 3, 32, 32⟩ =
        PyValue.pyDict [("sample", ⟨1, 5, 32, 32⟩)] := by
  constructor <;> rfl

/-- C1 (amended): for every valid configuration and input (equal-length
block lists, at least one level, spatial size divisible by
`2^(levels-1)`), `forward` returns a dictionary whose sole entry, under
the key `"sample"`, is the post-processed tensor of shape
`[batch, out_channels, H, W]`. -/
theorem C1_forward_output (cfg : UNetConfig)
    (hdt : cfg.downBlockTypes.length = cfg.blockChannels.length)
    (hut : cfg.upBlockTypes.length = cfg.blockChannels.length)
    (hL : 0 < cfg.blockChannels.length)
    (b cin H W : Nat)
    (hH : 2 ^ (cfg.blockChannels.length - 1) ∣ H)
    (hW : 2 ^ (cfg.blockChannels.length - 1) ∣ W) :
    (mkUNetModel cfg).forwardCompute ⟨b, cin, H, W⟩ =
      PyValue.pyDict [("sample", ⟨b, cfg.outChannels, H, W⟩)] := by
  simp only [UNetModel.forwardCompute, mkUNetModel, UNetMidBlock2D_shape]
  rw [downLoop_main, upLoop_main, countDownsamples_mkDownBlocks cfg hdt hL,
    countUpsamples_mkUpBlocks cfg hut hL]
  simp [Nat.div_mul_cancel hH, Nat.div_mul_cancel hW]

/-- C1 witness: the two-level configuration on a `[1,3,32,32]` input
returns the dictionary with the `[1,5,32,32]` post-processed tensor. -/
theorem C1_forward_output_witness :
    (mkUNetModel cfgTwoLevel).forwardCompute ⟨1, 3, 32, 32⟩ =
      PyValue.pyDict [("sample", ⟨1, 5, 32, 32⟩)] :=
  C1_forward_output cfgTwoLevel rfl rfl (by decide) 1 3 32 32 ⟨16, rfl⟩ ⟨16, rfl⟩

/-! ### Claim C4 -/

/-- C4 counterexample: constructing the skip-combine component with the
unrecognized method string `"xor"` raises no exception at all (the
result is `ok`, not an error); the `ValueError` only appears when
`forward` is later invoked. -/
theorem C4_counterexample :
    Combine.construct 4 8 "xor" = Except.ok ⟨4, 8, "xor"⟩
    ∧ raisedConfigurationError (Combine.construct 4 8 "xor") = false
    ∧ Combine.forward ⟨4, 8, "xor"⟩ ⟨1, 4, 8, 8⟩ ⟨1, 8, 8, 8⟩ =
        Except.error (.valueError "Method xor not recognized.") := by
  refine ⟨rfl, rfl, ?_⟩
  rfl

/-- C4 (amended): an unrecognized skip-combine method string is accepted
silently at construction time; the `ValueError` is raised only when the
component's `forward` is invoked (after its 1x1 convolution step). -/
theorem C4_combine_raises_at_forward (d1 d2 : Nat) (method : String) (x y : Shape)
    (hc : method ≠ "cat") (hs : method ≠ "sum") (hx : x.channels = d1) :
    Combine.construct d1 d2 method = Except.ok ⟨d1, d2, method⟩
    ∧ Combine.forward ⟨d1, d2, method⟩ x y =
        Except.error (.valueError ("Method " ++ method ++ " not recognized.")) := by
  refine ⟨rfl, ?_⟩
  simp [Combine.forward, conv2d1x1, hx, hc, hs, Bind.bind, Except.bind]

/-- C4 witness: a concrete unrecognized method `"mul"`. -/
theorem C4_combine_raises_at_forward_witness :
    Combine.construct 4 8 "mul" = Except.ok ⟨4, 8, "mul"⟩
    ∧ Combine.forward ⟨4, 8, "mul"⟩ ⟨1, 4, 8, 8⟩ ⟨1, 8, 8, 8⟩ =
        Except.error (.valueError ("Method " ++ "mul" ++ " not recognized.")) :=
  C4_combine_raises_at_forward 4 8 "mul" ⟨1, 4, 8, 8⟩ ⟨1, 8, 8, 8⟩
    (by decide) (by decide) rfl

/-! ### Claim C5 -/

/-- C5 counterexample: with `sde=False`, constructing with the
unrecognized embedding-kind string `"xor"` does fail, but with an
`UnboundLocalError` on `timestep_input_dim` (the kind selection has no
`else` branch), which is not an exception of the kind the spec calls a
`ConfigurationError`. -/
theorem C5_counterexample :
    initTimeLayers "xor" none 16 224 true 0 =
        Except.error (.unboundLocalError "timestep_input_dim")
    ∧ raisedConfigurationError (initTimeLayers "xor" none 16 224 true 0) = false := by
  constructor <;> rfl

/-- C5 (amended): with `sde=False`, a timestep-embedding kind other than
`"positional"` or `"fourier"` makes construction fail with an
`UnboundLocalError` on `timestep_input_dim`, not with a
ConfigurationError-kind exception; with `sde` left at its default
`True`, the kind is overridden to `"fourier"` and the selection
succeeds, so no error is raised on this account at all. -/
theorem C5_unrecognized_embedding_kind (s : String) (nf : Option Nat)
    (fs c0 : Nat) (flip : Bool) (shift : Nat)
    (h1 : s ≠ "fourier") (h2 : s ≠ "positional") :
    initTimeLayers s nf fs c0 flip shift =
        Except.error (.unboundLocalError "timestep_input_dim")
    ∧ raisedConfigurationError (initTimeLayers s nf fs c0 flip shift) = false
    ∧ (∀ (p : InitParams) (e : EffectiveInit),
        applySdeOverrides p = Except.ok e → p.sde = true →
        e.timeEmbeddingTypeCfg = "fourier"
        ∧ initTimeLayers e.timeEmbeddingTypeCfg nf fs c0 flip shift =
            Except.ok (.fourierProjection nf fs, 2 * c0)) := by
  have hsel : initTimeLayers s nf fs c0 flip shift =
      Except.error (.unboundLocalError "timestep_input_dim") := by
    simp [initTimeLayers, h1, h2]
  refine ⟨hsel, by rw [hsel]; rfl, ?_⟩
  intro p e he hs
  rcases hnf : p.nf with _ | n <;> rcases hch : p.chMult with _ | l <;>
    simp [applySdeOverrides, hs, hnf, hch] at he
  rw [← he]
  exact ⟨rfl, by simp [initTimeLayers]⟩

/-- C5 witness: the amended behaviour at concrete inputs, including the
default-`sde` parameter set, whose effective embedding kind is
`"fourier"`. -/
theorem C5_unrecognized_embedding_kind_witness :
    initTimeLayers "banana" (some 128) 16 128 true 0 =
        Except.error (.unboundLocalError "timestep_input_dim")
    ∧ raisedConfigurationError (initTimeLayers "banana" (some 128) 16 128 true 0)
        = false
    ∧ (sdeEffective.timeEmbeddingTypeCfg = "fourier"
       ∧ initTimeLayers sdeEffective.timeEmbeddingTypeCfg (some 128) 16 128 true 0 =
           Except.ok (.fourierProjection (some 128) 16, 2 * 128)) :=
  ⟨(C5_unrecognized_embedding_kind "banana" (some 128) 16 128 true 0
      (by decide) (by decide)).1,
   (C5_unrecognized_embedding_kind "banana" (some 128) 16 128 true 0
      (by decide) (by decide)).2.1,
   (C5_unrecognized_embedding_kind "banana" (some 128) 16 128 true 0
      (by decide) (by decide)).2.2 sdeParams sdeEffective rfl rfl⟩

/-! ### Claim C6 -/

/-- C6 counterexample: the very first `forward` call on a freshly
constructed instance (all legacy flags off) mutates a non-weight field:
it flips `is_overwritten` from `False` to `True`, so the post-call state
differs from the pre-call state. -/
theorem C6_counterexample :
    statePlain.isOverwritten = false
    ∧ (statePlain.forward ⟨1, 3, 32, 32⟩).1.isOverwritten = true
    ∧ (statePlain.forward ⟨1, 3, 32, 32⟩).1 ≠ statePlain := by
  refine ⟨rfl, rfl, ?_⟩
  decide

/-- C6 (amended): the first `forward` call sets `is_overwritten` (and,
in legacy modes, rewrites weights and detaches the legacy submodules);
every later `forward` call leaves the instance state entirely
unchanged, and no call ever mutates the block graph or the
configuration flags. -/
theorem C6_forward_frame (st : UNetState) (sample : Shape) :
    (st.isOverwritten = true →
        st.forward sample = (st, .output (st.graph.forwardCompute sample)))
    ∧ (st.forward sample).1.graph = st.graph
    ∧ (st.forward sample).1.ldm = st.ldm
    ∧ (st.forward sample).1.ddpm = st.ddpm
    ∧ (st.forward sample).1.sde = st.sde
    ∧ (st.isOverwritten = false → (st.forward sample).1.isOverwritten = true) := by
  by_cases h : st.isOverwritten = true <;>
    by_cases hl : st.ldm = true <;>
      by_cases hd2 : st.ddpm = true <;>
        by_cases hsde : st.sde = true <;>
          simp [UNetState.forward, setWeights, h, hl, hd2, hsde]

/-- C6 witness: on the fresh plain instance the graph is preserved and
the flag flips; on an already-overwritten instance the call is a pure
read. -/
theorem C6_forward_frame_witness :
    (stateDone.forward ⟨1, 3, 32, 32⟩ =
        (stateDone, .output (stateDone.graph.forwardCompute ⟨1, 3, 32, 32⟩)))
    ∧ (statePlain.forward ⟨1, 3, 32, 32⟩).1.graph = statePlain.graph
    ∧ (statePlain.forward ⟨1, 3, 32, 32⟩).1.isOverwritten = true :=
  ⟨(C6_forward_frame stateDone ⟨1, 3, 32, 32⟩).1 rfl,
   (C6_forward_frame statePlain ⟨1, 3, 32, 32⟩).2.1,
   (C6_forward_frame statePlain ⟨1, 3, 32, 32⟩).2.2.2.2.2 rfl⟩

/-! ### Claim C10 -/

/-- C10: on a not-yet-overwritten instance, `forward` invokes
`set_weights` before any computation; `set_weights` sets
`is_overwritten` to `True`, and with `config.sde` true (the default,
legacy flags off) its sde branch ends in the unconditional
`ipdb.set_trace()` breakpoint, so the first `forward` call is
interrupted and does not run to completion; once `is_overwritten` is
true the guard skips `set_weights` and the call completes. -/
theorem C10_first_forward_breakpoint (st : UNetState) (sample : Shape)
    (h : st.isOverwritten = false) (hl : st.ldm = false) (hd : st.ddpm = false)
    (hs : st.sde = true) :
    st.forward sample =
      ({ st with isOverwritten := true, weightsVersion := st.weightsVersion + 1 },
        ForwardResult.interrupted)
    ∧ (st.forward sample).1.isOverwritten = true
    ∧ (∀ st2 : UNetState, st2.isOverwritten = true →
        st2.forward sample = (st2, .output (st2.graph.forwardCompute sample))) := by
  refine ⟨?_, ?_, ?_⟩
  · simp [UNetState.forward, setWeights, h, hl, hd, hs]
  · simp [UNetState.forward, setWeights, h, hl, hd, hs]
  · intro st2 h2
    simp [UNetState.forward, h2]

/-- C10 witness: the fresh default-mode (`sde=True`) instance is
interrupted at the breakpoint with its flag flipped, and the
already-overwritten instance completes. -/
theorem C10_first_forward_breakpoint_witness :
    stateSde.forward ⟨1, 3, 32, 32⟩ =
      ({ stateSde with isOverwritten := true, weightsVersion := stateSde.weightsVersion + 1 },
        ForwardResult.interrupted)
    ∧ stateDone.forward ⟨1, 3, 32, 32⟩ =
        (stateDone, .output (stateDone.graph.forwardCompute ⟨1, 3, 32, 32⟩)) :=
  ⟨(C10_first_forward_breakpoint stateSde ⟨1, 3, 32, 32⟩ rfl rfl rfl rfl).1,
   (C10_first_forward_breakpoint stateSde ⟨1, 3, 32, 32⟩ rfl rfl rfl rfl).2.2
      stateDone rfl⟩

/-! ### Claim C7 -/

/-- C7: at the start of every `forward` call the timestep argument is
normalized to a 1-D tensor aligned to the batch: a non-tensor scalar
(int or float) is wrapped into a length-1 `int64` tensor on the
sample's device, a 0-dimensional tensor is broadcast to a length-1
tensor on the sample's device, and a 1-D tensor passes through
unchanged. -/
theorem C7_timestep_normalization (dev : Nat) :
    (∀ n : Int, normalizeTimesteps dev (.scalarInt n) =
        { dims := [1], vals := [(n : ℚ)], dtype := .int64, device := dev })
    ∧ (∀ q : ℚ, normalizeTimesteps dev (.scalarFloat q) =
        { dims := [1], vals := [((truncTowardZero q : Int) : ℚ)], dtype := .int64,
          device := dev })
    ∧ (∀ t : TorchTensor, t.dims = [] →
        normalizeTimesteps dev (.tensor t) = { t with dims := [1], device := dev })
    ∧ (∀ t : TorchTensor, t.dims.length = 1 →
        normalizeTimesteps dev (.tensor t) = t)
    ∧ (∀ t : TorchTensor, t.dims = [] ∨ t.dims.length = 1 →
        (normalizeTimesteps dev (.tensor t)).dims.length = 1) := by
  refine ⟨fun n => rfl, fun q => rfl, ?_, ?_, ?_⟩
  · intro t ht
    simp [normalizeTimesteps, ht]
  · intro t ht
    have hne : t.dims ≠ [] := by
      intro hx
      rw [hx] at ht
      exact absurd ht (by decide)
    simp [normalizeTimesteps, hne]
  · intro t ht
    rcases ht with h0 | h1
    · simp [normalizeTimesteps, h0]
    · have hne : t.dims ≠ [] := by
        intro hx
        rw [hx] at h1
        exact absurd h1 (by decide)
      simp [normalizeTimesteps, hne, h1]

/-- C7 witness: a concrete scalar, 0-D tensor and 1-D tensor. -/
theorem C7_timestep_normalization_witness :
    normalizeTimesteps 0 (.scalarInt 7) =
      { dims := [1], vals := [(7 : ℚ)], dtype := .int64, device := 0 }
    ∧ normalizeTimesteps 0 (.tensor ⟨[], [(5 : ℚ)], .float32, 4⟩) =
        { dims := [1], vals := [(5 : ℚ)], dtype := .float32, device := 0 }
    ∧ normalizeTimesteps 0 (.tensor ⟨[3], [(1 : ℚ), 2, 3], .float32, 4⟩) =
        ⟨[3], [(1 : ℚ), 2, 3], .float32, 4⟩ :=
  ⟨(C7_timestep_normalization 0).1 7,
   (C7_timestep_normalization 0).2.2.1 ⟨[], [(5 : ℚ)], .float32, 4⟩ rfl,
   (C7_timestep_normalization 0).2.2.2.1 ⟨[3], [(1 : ℚ), 2, 3], .float32, 4⟩ rfl⟩

/-! ### Claim C8 -/

/-- C8: the timestep MLP maps its input by the first linear layer, then
the silu nonlinearity exactly when the activation kind is `"silu"` (and
the identity when it is unset), then the second linear layer; it is a
pure function of its two linear layers, and its output width is the
second layer's output width `time_embed_dim`. -/
theorem C8_timestep_mlp (σ : ℚ → ℚ) (actFn : Option String) (l1 l2 : LinearLayer)
    (x : List ℚ) :
    (TimestepEmbedding.construct actFn l1 l2).forward σ x =
        l2.apply (if actFn = some "silu" then (l1.apply x).map σ else l1.apply x)
    ∧ (actFn = none →
        (TimestepEmbedding.construct actFn l1 l2).forward σ x =
          l2.apply (l1.apply x))
    ∧ (∀ d : Nat, l2.weight.length = d → l2.bias.length = d →
        ((TimestepEmbedding.construct actFn l1 l2).forward σ x).length = d) := by
  refine ⟨?_, ?_, ?_⟩
  · by_cases h : actFn = some "silu" <;>
      simp [TimestepEmbedding.construct, TimestepEmbedding.forward, h]
  · intro h
    subst h
    simp [TimestepEmbedding.construct, TimestepEmbedding.forward]
  · intro d h1 h2
    simp [TimestepEmbedding.construct, TimestepEmbedding.forward,
      LinearLayer.apply, h1, h2]

/-- C8 witness: a one-dimensional instance with the silu slot filled by
a concrete function. -/
theorem C8_timestep_mlp_witness :
    (TimestepEmbedding.construct (some "silu") ⟨[[1]], [0]⟩ ⟨[[2]], [1]⟩).forward
        (fun q => q * q) [3] =
      LinearLayer.apply ⟨[[2]], [1]⟩
        (if (some "silu" : Option String) = some "silu" then
          (LinearLayer.apply ⟨[[1]], [0]⟩ [3]).map (fun q => q * q)
        else LinearLayer.apply ⟨[[1]], [0]⟩ [3])
    ∧ ((TimestepEmbedding.construct (some "silu") ⟨[[1]], [0]⟩
        ⟨[[2]], [1]⟩).forward (fun q => q * q) [3]).length = 1 :=
  ⟨(C8_timestep_mlp (fun q => q * q) (some "silu") ⟨[[1]], [0]⟩ ⟨[[2]], [1]⟩ [3]).1,
   (C8_timestep_mlp (fun q => q * q) (some "silu") ⟨[[1]], [0]⟩
      ⟨[[2]], [1]⟩ [3]).2.2 1 rfl rfl⟩

/-! ### Claim C9 -/

/-- C9: when the model is constructed with `sde` left at its default
`True` (and the sde options `nf`, `ch_mult` supplied), the constructor
overrides the user-supplied options before building the block graph:
`block_channels` becomes `nf` times each entry of `ch_mult`,
`in_channels` and `out_channels` both become `num_channels`,
`conv_resample` becomes `resamp_with_conv`, the embedding kind is
forced to `"fourier"` with the embedding activation cleared, and
`down_blocks` is replaced by the four fixed skip-variant type tags
regardless of what the caller passed (`up_blocks` is untouched). -/
theorem C9_sde_overrides (p : InitParams) (n : Nat) (l : List Nat)
    (hs : p.sde = true) (hn : p.nf = some n) (hc : p.chMult = some l) :
    applySdeOverrides p = Except.ok
      { blockChannels := l.map (fun x => n * x)
        inChannels := p.numChannels
        outChannels := p.numChannels
        convResample := p.resampWithConv
        timeEmbeddingTypeCfg := "fourier"
        timeEmbeddingActFnCfg := none
        downBlocks := sdeDownBlockTypes
        upBlocks := p.upBlocks } := by
  simp [applySdeOverrides, hs, hn, hc]

/-- C9 witness: the concrete default-`sde` parameter set. -/
theorem C9_sde_overrides_witness :
    applySdeOverrides sdeParams = Except.ok
      { blockChannels := [128, 256, 256, 256]
        inChannels := some 3
        outChannels := some 3
        convResample := some true
        timeEmbeddingTypeCfg := "fourier"
        timeEmbeddingActFnCfg := none
        downBlocks := sdeDownBlockTypes
        upBlocks := sdeParams.upBlocks } :=
  C9_sde_overrides sdeParams 128 [1, 2, 2, 2] rfl rfl rfl

end UNetUncond
